import Mathlib

/-!
Verification of the oslo.cache configuration-translation core
(`oslo_cache/core.py`) and the Redis sentinel backend adapter
(`oslo_cache/backends/redis.py`).

Python dictionaries are modelled as insertion-ordered association lists,
Python strings as Lean strings, and Python's heterogeneous values as the
inductive type `PyVal`.  Fallible Python code (KeyError, ValueError from
`int()` or tuple unpacking) is modelled with `Except String`.
-/

namespace OsloCache

/-- A Python value as it occurs in the argument / config dictionaries:
strings, booleans, integers, `None`, a parsed sentinel list of
(host, port) pairs, and a nested dictionary. -/
inductive PyVal where
  | str (s : String)
  | bool (b : Bool)
  | int (n : Int)
  | none
  | sentinelList (l : List (String × Int))
  | dict (d : List (String × PyVal))

/-- A Python dict: insertion-ordered association list with unique keys
maintained by the update operation. -/
abbrev PyDict := List (String × PyVal)

/-- `d[k]` as an `Option`: the first (hence unique) binding of `k`. -/
def dictLookup (d : PyDict) (k : String) : Option PyVal :=
  (d.find? (fun p => p.1 = k)).map (fun p => p.2)

/-- `d[k] = v`: replace the first binding in place if `k` is present
(keeping its position, as Python dicts do — a Python dict never holds a
key twice), otherwise append a new binding. -/
def dictUpdate : PyDict → String → PyVal → PyDict
  | [], k, v => [(k, v)]
  | p :: rest, k, v =>
      if p.1 = k then (k, v) :: rest else p :: dictUpdate rest k v

/-- `d.setdefault(k, v)`: insert only when the key is absent. -/
def dictSetdefault : PyDict → String → PyVal → PyDict
  | [], k, v => [(k, v)]
  | p :: rest, k, v =>
      if p.1 = k then p :: rest else p :: dictSetdefault rest k v

/-- `del d[k]`: drop every binding of `k`. -/
def dictDelete : PyDict → String → PyDict
  | [], _ => []
  | p :: rest, k =>
      if p.1 = k then dictDelete rest k else p :: dictDelete rest k

/-- Python truthiness of a `PyVal` (`bool(v)`). -/
def truthy : PyVal → Bool
  | .str s => s != ""
  | .bool b => b
  | .int n => n != 0
  | .none => false
  | .sentinelList [] => false
  | .sentinelList (_ :: _) => true
  | .dict [] => false
  | .dict (_ :: _) => true

/-- `s.split(sep, 1)` for a one-character separator: split on the FIRST
occurrence; `Option.none` when the separator does not occur (in which
case the Python two-variable unpacking raises `ValueError`). -/
def splitFirst (c : Char) (s : String) : Option (String × String) :=
  let before := s.data.takeWhile (fun x => x ≠ c)
  match s.data.dropWhile (fun x => x ≠ c) with
  | [] => Option.none
  | _ :: after => Option.some (String.mk before, String.mk after)

/-- `s.rsplit(sep, 1)` for a one-character separator: split on the LAST
occurrence; `Option.none` when the separator does not occur. -/
def rsplitLast (c : Char) (s : String) : Option (String × String) :=
  let rev := s.data.reverse
  let afterRev := rev.takeWhile (fun x => x ≠ c)
  match rev.dropWhile (fun x => x ≠ c) with
  | [] => Option.none
  | _ :: beforeRev =>
      Option.some (String.mk beforeRev.reverse, String.mk afterRev.reverse)

/-- `s.split(sep)` for a one-character separator, on the character
list: always returns at least one (possibly empty) group, like
Python's `str.split` with an explicit separator. -/
def splitOnChar (c : Char) : List Char → List (List Char)
  | [] => [[]]
  | x :: rest =>
      match splitOnChar c rest with
      | [] => [[]]
      | g :: gs => if x = c then [] :: g :: gs else (x :: g) :: gs

/-- `s.split(sep)` for a one-character separator. -/
def pySplit (c : Char) (s : String) : List String :=
  (splitOnChar c s.data).map String.mk

/-- Whitespace as stripped by `int()` before parsing. -/
def isPySpace (ch : Char) : Bool :=
  ch = ' ' || ch = '\t' || ch = '\n' || ch = '\r' || ch = '\x0b' || ch = '\x0c'

/-- Strip leading and trailing whitespace. -/
def trimChars (l : List Char) : List Char :=
  (((l.dropWhile isPySpace).reverse.dropWhile isPySpace).reverse)

/-- Digit-string to number. -/
def digitsToNat (l : List Char) : Nat :=
  l.foldl (fun a c => a * 10 + (c.toNat - 48)) 0

/-- Python's `int(s)` on a string: optional surrounding whitespace,
optional sign, then a nonempty run of decimal digits (PEP 515 underscore
grouping is not modelled).  `Option.none` models the `ValueError`. -/
def pyInt (s : String) : Option Int :=
  let t := trimChars s.data
  let core :=
    match t with
    | '+' :: rest => rest
    | '-' :: rest => rest
    | l => l
  if core ≠ [] ∧ core.all Char.isDigit then
    match t with
    | '-' :: _ => Option.some (-(digitsToNat core : Int))
    | _ => Option.some (digitsToNat core : Int)
  else
    Option.none

/-- The `[cache]` section of the oslo.config object as consumed by
`core.py`, plus the option fields used by `configure_cache_region`.
`configPfx` is the `config_prefix` option (default `"cache"`); option
values that land in the config dictionary are kept as `PyVal` since
oslo.config delivers heterogeneous (string / int / None) values. -/
structure CacheConf where
  configPfx : String
  backend : PyVal
  expiration_time : PyVal
  backend_argument : List String
  memcache_servers : PyVal
  memcache_dead_retry : PyVal
  memcache_socket_timeout : PyVal
  memcache_pool_maxsize : PyVal
  memcache_pool_unused_timeout : PyVal
  memcache_pool_connection_get_timeout : PyVal
  debug_cache_backend : Bool
  proxies : List String
  enabled : Bool

/-- `'.'.join([prefix, 'arguments', argname])`, which is also the string
produced by `'%s.arguments.%s' % (prefix, arg)`. -/
def argKey (pfx name : String) : String :=
  pfx ++ ".arguments." ++ name

/-- One iteration of the `for argument in conf.cache.backend_argument`
loop of `_build_cache_config`: split once on the first colon; on
`ValueError` (no colon) log and `continue`, leaving the dict unchanged. -/
def backendArgStep (pfx : String) (d : PyDict) (argument : String) : PyDict :=
  match splitFirst ':' argument with
  | Option.none => d
  | Option.some (argname, argvalue) => dictUpdate d (argKey pfx argname) (.str argvalue)

/-- The five names iterated by the legacy-memcache loop at the end of
`_build_cache_config`. -/
def legacyMemcacheArgs : List String :=
  ["dead_retry", "socket_timeout", "pool_maxsize", "pool_unused_timeout",
   "pool_connection_get_timeout"]

/-- `getattr(conf.cache, 'memcache_' + arg)` for the five legacy names. -/
def memcacheArgValue (conf : CacheConf) (arg : String) : PyVal :=
  if arg = "dead_retry" then conf.memcache_dead_retry
  else if arg = "socket_timeout" then conf.memcache_socket_timeout
  else if arg = "pool_maxsize" then conf.memcache_pool_maxsize
  else if arg = "pool_unused_timeout" then conf.memcache_pool_unused_timeout
  else conf.memcache_pool_connection_get_timeout

/-- Per-group options consulted by the memoization helpers:
`[group] caching` (default `True`) and `[group] cache_time`
(default `None`), both read with `getattr(..., default)`. -/
structure GroupConf where
  caching : Option Bool
  cache_time : Option Int

/-- The oslo.config `ConfigOpts` object: the `[cache]` section plus the
registered per-group sections (`getattr(conf, group)`). -/
structure ConfObj where
  cache : CacheConf
  groups : List (String × GroupConf)

/-- The first phase of `core._build_cache_config`: the `backend` and
`expiration_time` entries followed by the `backend_argument` loop
(everything up to and excluding the memcache-legacy block). -/
def argsPhase (conf : ConfObj) : PyDict :=
  let pfx := conf.cache.configPfx
  let d0 : PyDict := dictUpdate [] (pfx ++ ".backend") conf.cache.backend
  let d1 := dictUpdate d0 (pfx ++ ".expiration_time") conf.cache.expiration_time
  conf.cache.backend_argument.foldl (backendArgStep pfx) d1

/-- `core._build_cache_config`: backend and expiration first, then the
`backend_argument` loop (`argsPhase`), then `setdefault` for the
memcache url, then unconditional assignment of the five legacy memcache
arguments. -/
def _build_cache_config (conf : ConfObj) : PyDict :=
  let pfx := conf.cache.configPfx
  let d3 := dictSetdefault (argsPhase conf) (argKey pfx "url") conf.cache.memcache_servers
  legacyMemcacheArgs.foldl
    (fun d arg => dictUpdate d (argKey pfx arg) (memcacheArgValue conf.cache arg)) d3

/-- `d[k]` raising `KeyError` when absent. -/
def getItem (d : PyDict) (k : String) : Except String PyVal :=
  match dictLookup d k with
  | Option.some v => Except.ok v
  | Option.none => Except.error ("KeyError: " ++ k)

/-- A value used where a Python `str` is required (`.split` attribute
access fails on non-strings). -/
def asStr (v : PyVal) : Except String String :=
  match v with
  | .str s => Except.ok s
  | _ => Except.error "AttributeError: split"

/-- One `host_port.rsplit(\":\", 1)` / `int(port)` step of the sentinel
list comprehension in `RedisSentinelBackend.__init__`; `Except.error`
models the `ValueError` from tuple unpacking or from `int`. -/
def parseSentinelEntry (host_port : String) : Except String (String × Int) :=
  match rsplitLast ':' host_port with
  | Option.none => Except.error "ValueError: not enough values to unpack"
  | Option.some (host, port) =>
      match pyInt port with
      | Option.none => Except.error ("ValueError: invalid literal for int: " ++ port)
      | Option.some n => Except.ok (host, n)

/-- Elementwise parsing of the comma-split pieces; as in the Python
list comprehension, the first failing entry aborts the whole list. -/
def parseSentinelsList : List String → Except String (List (String × Int))
  | [] => Except.ok []
  | e :: rest => do
      let p ← parseSentinelEntry e
      let ps ← parseSentinelsList rest
      pure (p :: ps)

/-- The whole sentinel list comprehension: split the `sentinels` string
on commas and parse each `host:port` pair. -/
def parseSentinels (s : String) : Except String (List (String × Int)) :=
  parseSentinelsList (pySplit ',' s)

/-- `RedisSentinelBackend.__init__` from `oslo_cache/backends/redis.py`,
up to the final delegation to the dogpile superclass: returns the
reshaped argument dictionary that the superclass receives, or the
exception the constructor raises. -/
def redisSentinelInit (arguments : PyDict) : Except String PyDict := do
  let sentinelsVal ← getItem arguments "sentinels"
  let sentinelsStr ← asStr sentinelsVal
  let sentinels ← parseSentinels sentinelsStr
  let username ← getItem arguments "username"
  let password ← getItem arguments "password"
  let base : PyDict := [("username", username), ("password", password)]
  let reformated_kwargs ←
    match dictLookup arguments "ssl" with
    | Option.some sslv =>
        if truthy sslv then do
          let cert ← getItem arguments "ssl_certfile"
          let key ← getItem arguments "ssl_keyfile"
          let ca ← getItem arguments "ssl_ca_certs"
          pure (dictUpdate (dictUpdate (dictUpdate (dictUpdate base
            "ssl" sslv) "ssl_certfile" cert) "ssl_keyfile" key) "ssl_ca_certs" ca)
        else pure base
    | Option.none => pure base
  let args1 := dictUpdate arguments "sentinels" (.sentinelList sentinels)
  let args2 := dictUpdate args1 "connection_kwargs" (.dict reformated_kwargs)
  let args3 := dictUpdate args2 "sentinel_kwargs" (.dict reformated_kwargs)
  let args4 := dictDelete args3 "username"
  let args5 := dictDelete args4 "password"
  pure args5

/-- A proxy class wrapped around a region's backend: either the
`_DebugProxy` defined in `core.py`, or a class imported from one of the
paths in `conf.cache.proxies`. -/
inductive ProxyClass where
  | debugProxy
  | custom (classPath : String)
deriving DecidableEq

/-- A region's key mangler: the default `_sha1_mangle_key` installed by
`configure_cache_region`, or a mangler the backend itself declares. -/
inductive KeyMangler where
  | sha1Mangler
  | backendMangler (name : String)
deriving DecidableEq

/-- The backend slot of a dogpile `CacheRegion`: the instance resolved
from the config dictionary, possibly wrapped by proxies.  `wrap p inner`
is the result of `region.wrap(p)` on a region whose backend was `inner`,
so the outermost constructor is the proxy that sees calls first. -/
inductive BackendChain where
  | base (cfg : PyDict)
  | wrap (p : ProxyClass) (inner : BackendChain)

/-- The proxies wrapped around a backend, outermost first. -/
def proxyStack : BackendChain → List ProxyClass
  | .base _ => []
  | .wrap p inner => p :: proxyStack inner

/-- The configuration dictionary at the root of a backend chain. -/
def chainBase : BackendChain → PyDict
  | .base cfg => cfg
  | .wrap _ inner => chainBase inner

/-- Modelled from the spec: a dogpile `CacheRegion` (external to
`src/`), reduced to the state `configure_cache_region` observes and
mutates — the backend slot (`is_configured` is `backend is not None`)
and the key mangler. -/
structure CacheRegion where
  backend : Option BackendChain
  key_mangler : Option KeyMangler

/-- `region.is_configured`: whether a backend has been bound. -/
def CacheRegion.is_configured (r : CacheRegion) : Bool :=
  r.backend.isSome

/-- `region.wrap(cls)`: the new proxy wraps the current backend and
becomes the outermost layer. -/
def regionWrap (r : CacheRegion) (p : ProxyClass) : CacheRegion :=
  { r with backend := r.backend.map (BackendChain.wrap p) }

/-- Modelled from the spec: the backend registry (spec section 4.1,
`oslo_cache`'s registrations live behind dogpile, outside `src/`).
`resolve name` is `Option.none` when the name is unknown — the
`UnknownBackendError` case — and otherwise carries the optional key
mangler the resolved backend declares. -/
structure BackendRegistry where
  resolve : String → Option (Option KeyMangler)

/-- The two error kinds observable from `configure_cache_region`:
`oslo_cache.exception.ConfigurationError`, and the error the registry
raises for an unresolvable backend name (spec section 4.1:
`UnknownBackendError`), which `configure_cache_region` does not catch. -/
inductive CacheError where
  | configurationError (msg : String)
  | unknownBackendError (name : String)
deriving DecidableEq

/-- An object passed to `configure_cache_region`: either an actual
`dogpile.cache.CacheRegion` or some other object (the
`isinstance` check fails on the latter). -/
inductive RegionObj where
  | region (r : CacheRegion)
  | notARegion (descr : String)

/-- Modelled from the spec: `region.configure_from_config(config_dict,
prefix)` (dogpile, outside `src/`; spec sections 4.1 and 4.4) — resolves
the `<prefix>backend` name through the registry, binds the backend
instance built from the config dictionary, and sets the key mangler to
the backend's own mangler if the backend defines one.  An unresolvable
name fails with the registry's `UnknownBackendError`. -/
def configure_from_config (reg : BackendRegistry) (r : CacheRegion)
    (cfg : PyDict) (pfxDot : String) : Except CacheError CacheRegion :=
  match dictLookup cfg (pfxDot ++ "backend") with
  | Option.some (.str name) =>
      match reg.resolve name with
      | Option.some mangler =>
          Except.ok { r with backend := Option.some (.base cfg), key_mangler := mangler }
      | Option.none => Except.error (.unknownBackendError name)
  | _ => Except.error (.unknownBackendError "<missing backend option>")

/-- `core.configure_cache_region`: type check, no-op on an
already-configured region, otherwise build the config dictionary,
configure, optionally wrap `_DebugProxy`, default the key mangler to
`_sha1_mangle_key`, then wrap every class from `conf.cache.proxies` in
list order. -/
def configure_cache_region (reg : BackendRegistry) (conf : ConfObj)
    (obj : RegionObj) : Except CacheError CacheRegion :=
  match obj with
  | .notARegion _ =>
      Except.error (.configurationError "region not type dogpile.cache.CacheRegion")
  | .region r =>
      if r.is_configured then Except.ok r
      else
        let cfg := _build_cache_config conf
        match configure_from_config reg r cfg (conf.cache.configPfx ++ ".") with
        | Except.error e => Except.error e
        | Except.ok r1 =>
            let r2 := if conf.cache.debug_cache_backend
                      then regionWrap r1 .debugProxy else r1
            let r3 := if r2.key_mangler = Option.none
                      then { r2 with key_mangler := Option.some .sha1Mangler } else r2
            let r4 := conf.cache.proxies.foldl
                        (fun r cp => regionWrap r (.custom cp)) r3
            Except.ok r4

/-- The closure returned by `core._get_should_cache_fn(conf, group)`:
false when `[cache] enabled` is false, otherwise
`getattr(getattr(conf, group), 'caching', True)`.  The `Except` error
is the `getattr(conf, group)` failure on an unregistered group. -/
def should_cache (conf : ConfObj) (group : String) (value : PyVal) :
    Except String Bool :=
  if !conf.cache.enabled then Except.ok false
  else
    match (conf.groups.find? (fun p => p.1 = group)).map (fun p => p.2) with
    | Option.none => Except.error ("NoSuchOptError: " ++ group)
    | Option.some g => Except.ok (g.caching.getD true)

/-- Truncation to a 32-bit word. -/
def w32 (n : Nat) : Nat := n % 4294967296

/-- 32-bit left rotation of a word. -/
def rotl32 (b n : Nat) : Nat := w32 ((n <<< b) ||| (n >>> (32 - b)))

/-- 32-bit complement of a word. -/
def not32 (n : Nat) : Nat := n ^^^ 4294967295

/-- UTF-8 encoding of one code point. -/
def utf8Bytes (c : Nat) : List Nat :=
  if c < 128 then [c]
  else if c < 2048 then
    [192 ||| (c >>> 6), 128 ||| (c &&& 63)]
  else if c < 65536 then
    [224 ||| (c >>> 12), 128 ||| ((c >>> 6) &&& 63), 128 ||| (c &&& 63)]
  else
    [240 ||| (c >>> 18), 128 ||| ((c >>> 12) &&& 63),
     128 ||| ((c >>> 6) &&& 63), 128 ||| (c &&& 63)]

/-- `key.encode('utf-8', errors='xmlcharrefreplace')`.  Every scalar
code point is UTF-8-encodable, so the `xmlcharrefreplace` handler (which
would replace an unencodable character by `&#NNN;`) never fires on the
characters a Lean `String` can hold, and encoding is total. -/
def encodeUtf8 (s : String) : List Nat :=
  (s.data.map (fun ch => utf8Bytes ch.toNat)).flatten

/-- The 8-byte big-endian bit-length field of SHA-1 padding. -/
def lenBytes (n : Nat) : List Nat :=
  [(n >>> 56) % 256, (n >>> 48) % 256, (n >>> 40) % 256, (n >>> 32) % 256,
   (n >>> 24) % 256, (n >>> 16) % 256, (n >>> 8) % 256, n % 256]

/-- SHA-1 message padding: a 0x80 byte, zero bytes up to 56 mod 64, then
the message bit length. -/
def sha1Pad (msg : List Nat) : List Nat :=
  let L := msg.length
  msg ++ [128] ++ List.replicate ((119 - (L % 64)) % 64) 0 ++ lenBytes (8 * L)

/-- Big-endian 4-byte groups to 32-bit words. -/
def bytesToWords : List Nat → List Nat
  | b0 :: b1 :: b2 :: b3 :: rest =>
      (((b0 * 256 + b1) * 256 + b2) * 256 + b3) :: bytesToWords rest
  | _ => []

/-- Split a byte list into 64-byte chunks. -/
def chunks64 (l : List Nat) : List (List Nat) :=
  if h : l = [] then [] else l.take 64 :: chunks64 (l.drop 64)
termination_by l.length
decreasing_by
  have : 0 < l.length := List.length_pos.mpr h
  simp
  omega

/-- One extension step of the SHA-1 message schedule: append
`rotl1 (w[i-3] xor w[i-8] xor w[i-14] xor w[i-16])`. -/
def schedStep (ws : List Nat) : List Nat :=
  let n := ws.length
  ws ++ [rotl32 1 ((ws.getD (n - 3) 0) ^^^ (ws.getD (n - 8) 0) ^^^
                   (ws.getD (n - 14) 0) ^^^ (ws.getD (n - 16) 0))]

/-- The SHA-1 round function for round `i`. -/
def sha1F (i b c d : Nat) : Nat :=
  if i < 20 then (b &&& c) ||| ((not32 b) &&& d)
  else if i < 40 then b ^^^ c ^^^ d
  else if i < 60 then (b &&& c) ||| (b &&& d) ||| (c &&& d)
  else b ^^^ c ^^^ d

/-- The SHA-1 round constant for round `i`. -/
def sha1K (i : Nat) : Nat :=
  if i < 20 then 1518500249
  else if i < 40 then 1859775393
  else if i < 60 then 2400959708
  else 3395469782

/-- One SHA-1 round on the five-word state. -/
def sha1Round (st : Nat × Nat × Nat × Nat × Nat) (iw : Nat × Nat) :
    Nat × Nat × Nat × Nat × Nat :=
  let (i, w) := iw
  let (a, b, c, d, e) := st
  (w32 (rotl32 5 a + sha1F i b c d + e + sha1K i + w), a, rotl32 30 b, c, d)

/-- Process one 64-byte chunk with the SHA-1 compression function. -/
def sha1Chunk (h : Nat × Nat × Nat × Nat × Nat) (chunk : List Nat) :
    Nat × Nat × Nat × Nat × Nat :=
  let ws := schedStep^[64] (bytesToWords chunk)
  let (a, b, c, d, e) := ws.enum.foldl sha1Round h
  let (h0, h1, h2, h3, h4) := h
  (w32 (h0 + a), w32 (h1 + b), w32 (h2 + c), w32 (h3 + d), w32 (h4 + e))

/-- SHA-1 of a byte sequence, as the five-word digest state. -/
def sha1 (msg : List Nat) : Nat × Nat × Nat × Nat × Nat :=
  (chunks64 (sha1Pad msg)).foldl sha1Chunk
    (1732584193, 4023233417, 2562383102, 271733878, 3285377520)

/-- Hexadecimal digit character. -/
def hexDigit (n : Nat) : Char :=
  if n < 10 then Char.ofNat (48 + n) else Char.ofNat (87 + n)

/-- Fixed-width lowercase hexadecimal rendering: exactly `w` digits. -/
def hexFixed : Nat → Nat → List Char
  | 0, _ => []
  | w + 1, n => hexFixed w (n / 16) ++ [hexDigit (n % 16)]

/-- `.hexdigest()` of a SHA-1 digest state: 5 words of 8 hex digits. -/
def hexdigest (d : Nat × Nat × Nat × Nat × Nat) : String :=
  let (h0, h1, h2, h3, h4) := d
  String.mk (hexFixed 8 h0 ++ hexFixed 8 h1 ++ hexFixed 8 h2 ++
             hexFixed 8 h3 ++ hexFixed 8 h4)

/-- Modelled from the spec: `dogpile.cache.util.sha1_mangle_key`
(external to `src/`; spec section 4.3's "fixed-length one-way hash of
the UTF-8-encoded key"): `sha1(key).hexdigest()`. -/
def sha1_mangle_key (key : List Nat) : String :=
  hexdigest (sha1 key)

/-- `core._sha1_mangle_key`: encode with the `xmlcharrefreplace`
fallback, then delegate to dogpile's `sha1_mangle_key`. -/
def _sha1_mangle_key (key : String) : String :=
  sha1_mangle_key (encodeUtf8 key)

/-- The `<prefix>.arguments.<name>` key a `backend_argument` entry
produces, if the entry is well-formed. -/
def producedName (e : String) : Option String :=
  (splitFirst ':' e).map (fun q => q.1)

/-- `'ssl' in arguments and arguments['ssl']` as a Boolean: the
condition under which the sentinel adapter merges the TLS fields. -/
def sslOn (arguments : PyDict) : Bool :=
  match dictLookup arguments "ssl" with
  | Option.some v => truthy v
  | Option.none => false

/-- A representative `[cache]` section used for concrete evaluations:
dict backend, default-like memcache legacy values. -/
def cacheConfBase : CacheConf where
  configPfx := "cache"
  backend := .str "oslo_cache.dict"
  expiration_time := .int 600
  backend_argument := []
  memcache_servers := .str "localhost:11211"
  memcache_dead_retry := .int 30
  memcache_socket_timeout := .int 3
  memcache_pool_maxsize := .int 10
  memcache_pool_unused_timeout := .int 60
  memcache_pool_connection_get_timeout := .int 10
  debug_cache_backend := false
  proxies := []
  enabled := true

/-- A representative full config object. -/
def confBase : ConfObj where
  cache := cacheConfBase
  groups := []

/-- Config whose `backend_argument` supplies `dead_retry:5`. -/
def confDeadRetryArg : ConfObj :=
  { confBase with cache := { cacheConfBase with backend_argument := ["dead_retry:5"] } }

/-- Config whose `backend_argument` supplies `socket_timeout:7`. -/
def confSocketTimeoutArg : ConfObj :=
  { confBase with cache := { cacheConfBase with backend_argument := ["socket_timeout:7"] } }

/-- Config whose `backend_argument` supplies the memcache url. -/
def confUrlArg : ConfObj :=
  { confBase with cache := { cacheConfBase with backend_argument := ["url:1.2.3.4:11211"] } }

/-- Config with one malformed entry and one url entry. -/
def confBadAndUrlArgs : ConfObj :=
  { confBase with cache :=
      { cacheConfBase with backend_argument := ["bad", "url:1.2.3.4:11211"] } }

/-- Config with debug proxy enabled and two custom proxies. -/
def confProxies : ConfObj :=
  { confBase with cache := { cacheConfBase with
      debug_cache_backend := true
      proxies := ["my.proxy.One", "my.proxy.Two"] } }

/-- Config with caching globally disabled. -/
def confDisabled : ConfObj :=
  { confBase with
    cache := { cacheConfBase with enabled := false }
    groups := [("identity", { caching := Option.some true, cache_time := Option.none })] }

/-- Config with caching enabled and a group that sets no `caching`
option of its own. -/
def confGroupDefault : ConfObj :=
  { confBase with
    groups := [("identity", { caching := Option.none, cache_time := Option.none })] }

/-- A registry resolving exactly the dict backend, which declares no key
mangler of its own. -/
def regBase : BackendRegistry where
  resolve := fun name =>
    if name = "oslo_cache.dict" then Option.some Option.none else Option.none

/-- A registry resolving nothing: every backend name is unresolvable. -/
def regEmpty : BackendRegistry where
  resolve := fun _ => Option.none

/-- An unconfigured region fresh from `create_region`. -/
def regionUnconfigured : CacheRegion where
  backend := Option.none
  key_mangler := Option.none

/-- An already-configured region. -/
def regionConfigured : CacheRegion where
  backend := Option.some (.base [("cache.backend", .str "oslo_cache.dict")])
  key_mangler := Option.some .sha1Mangler

/-- A sentinel argument dict with `ssl` truthy but no `ssl_certfile`. -/
def argsMissingCert : PyDict :=
  [("sentinels", .str "10.0.0.1:26379"), ("username", .str "u"),
   ("password", .str "p"), ("ssl", .bool true)]

/-- A sentinel argument dict with no `sentinels` key at all. -/
def argsNoSentinels : PyDict :=
  [("username", .str "u"), ("password", .str "p")]

/-- A sentinel argument dict with no `username` key. -/
def argsNoUsername : PyDict :=
  [("sentinels", .str "10.0.0.1:26379"), ("password", .str "p")]

/-- A sentinel argument dict with no `password` key. -/
def argsNoPassword : PyDict :=
  [("sentinels", .str "10.0.0.1:26379"), ("username", .str "u")]

/-- A sentinel argument dict with `ssl` truthy and `ssl_certfile`
supplied but no `ssl_keyfile`. -/
def argsMissingKeyfile : PyDict :=
  [("sentinels", .str "10.0.0.1:26379"), ("username", .str "u"),
   ("password", .str "p"), ("ssl", .bool true), ("ssl_certfile", .str "cert.pem")]

/-- A sentinel argument dict with `ssl` truthy, `ssl_certfile` and
`ssl_keyfile` supplied but no `ssl_ca_certs`. -/
def argsMissingCaCerts : PyDict :=
  [("sentinels", .str "10.0.0.1:26379"), ("username", .str "u"),
   ("password", .str "p"), ("ssl", .bool true), ("ssl_certfile", .str "cert.pem"),
   ("ssl_keyfile", .str "key.pem")]

/-- The argument dict of the spec's sentinel example. -/
def argsSentinelExample : PyDict :=
  [("sentinels", .str "10.0.0.1:26379,10.0.0.2:26379"),
   ("username", .str "u"), ("password", .str "p")]

/-- A sentinel argument dict whose `sentinels` entry has no colon. -/
def argsBadSentinels : PyDict :=
  [("sentinels", .str "nocolon"), ("username", .str "u"), ("password", .str "p")]

theorem dictLookup_nil (k : String) : dictLookup [] k = Option.none := rfl

theorem dictLookup_cons (p : String × PyVal) (rest : PyDict) (k : String) :
    dictLookup (p :: rest) k =
      if p.1 = k then Option.some p.2 else dictLookup rest k := by
  by_cases h : p.1 = k <;> simp [dictLookup, List.find?, h]

theorem dictLookup_update (d : PyDict) (k k' : String) (v : PyVal) :
    dictLookup (dictUpdate d k v) k' =
      if k' = k then Option.some v else dictLookup d k' := by
  induction d with
  | nil =>
      by_cases h : k' = k
      · simp [dictUpdate, dictLookup_cons, dictLookup_nil, h]
      · have h' : ¬ k = k' := fun e => h e.symm
        simp [dictUpdate, dictLookup_cons, dictLookup_nil, h, h']
  | cons p rest ih =>
      by_cases hp : p.1 = k
      · by_cases h : k' = k
        · subst h; simp [dictUpdate, hp, dictLookup_cons]
        · have h' : ¬ k = k' := fun e => h e.symm
          have h2 : ¬ p.1 = k' := fun e => h (e ▸ hp)
          simp [dictUpdate, hp, dictLookup_cons, h, h', h2]
      · by_cases h2 : p.1 = k'
        · have h3 : ¬ k' = k := fun e => hp (e ▸ h2)
          simp [dictUpdate, hp, dictLookup_cons, h2, h3]
        · simp [dictUpdate, hp, dictLookup_cons, h2, ih]

theorem dictLookup_setdefault (d : PyDict) (k k' : String) (v : PyVal) :
    dictLookup (dictSetdefault d k v) k' =
      if k' = k then Option.some ((dictLookup d k).getD v) else dictLookup d k' := by
  induction d with
  | nil =>
      by_cases h : k' = k
      · simp [dictSetdefault, dictLookup_cons, dictLookup_nil, h]
      · have h' : ¬ k = k' := fun e => h e.symm
        simp [dictSetdefault, dictLookup_cons, dictLookup_nil, h, h']
  | cons p rest ih =>
      by_cases hp : p.1 = k
      · by_cases h : k' = k
        · subst h; simp [dictSetdefault, hp, dictLookup_cons]
        · simp [dictSetdefault, hp, dictLookup_cons, h]
      · by_cases h2 : p.1 = k'
        · have h3 : ¬ k' = k := fun e => hp (e ▸ h2)
          simp [dictSetdefault, hp, dictLookup_cons, h2, h3]
        · by_cases h : k' = k
          · subst h
            simp [dictSetdefault, hp, dictLookup_cons, h2, ih]
          · simp [dictSetdefault, hp, dictLookup_cons, h2, ih, h]

theorem dictLookup_delete (d : PyDict) (k k' : String) :
    dictLookup (dictDelete d k) k' =
      if k' = k then Option.none else dictLookup d k' := by
  induction d with
  | nil => simp [dictDelete, dictLookup_nil]
  | cons p rest ih =>
      by_cases hp : p.1 = k
      · by_cases h : k' = k
        · subst h; simp [dictDelete, hp, ih]
        · have h2 : ¬ p.1 = k' := fun e => h (e ▸ hp)
          have h' : ¬ k = k' := fun e => h e.symm
          simp [dictDelete, hp, ih, h, dictLookup_cons, h2, h']
      · by_cases h2 : p.1 = k'
        · have h : ¬ k' = k := fun e => hp (e ▸ h2)
          simp [dictDelete, hp, dictLookup_cons, h2, h]
        · simp [dictDelete, hp, dictLookup_cons, h2, ih]

theorem argKey_inj {pfx a b : String} (h : argKey pfx a = argKey pfx b) : a = b := by
  have e2 := congrArg String.data h
  simp [argKey, String.data_append] at e2
  exact String.ext e2

theorem argKey_ne (pfx : String) {a b : String} (h : a ≠ b) :
    argKey pfx a ≠ argKey pfx b :=
  fun e => h (argKey_inj e)

theorem argKey_ne_backend (pfx a : String) : argKey pfx a ≠ pfx ++ ".backend" := by
  intro e
  have e2 := congrArg String.data e
  simp [argKey, String.data_append] at e2

theorem argKey_ne_expiration (pfx a : String) :
    argKey pfx a ≠ pfx ++ ".expiration_time" := by
  intro e
  have e2 := congrArg String.data e
  simp [argKey, String.data_append] at e2

theorem filterMap_nodup_tail {α β : Type} (f : α → Option β) (a : α) (t : List α)
    (h : (List.filterMap f (a :: t)).Nodup) : (List.filterMap f t).Nodup := by
  cases hfa : f a with
  | none => simpa [List.filterMap_cons, hfa] using h
  | some b =>
      rw [List.filterMap_cons, hfa] at h
      exact h.of_cons

/-- If no entry of `args` produces the key `k`, the `backend_argument`
loop leaves the binding of `k` unchanged. -/
theorem argsLoop_lookup_notin (pfx : String) (args : List String) (d : PyDict)
    (k : String)
    (h : ∀ e ∈ args, ∀ n, producedName e = Option.some n → argKey pfx n ≠ k) :
    dictLookup (args.foldl (backendArgStep pfx) d) k = dictLookup d k := by
  induction args generalizing d with
  | nil => rfl
  | cons a t ih =>
      simp only [List.foldl_cons]
      rw [ih _ (fun e he n hn => h e (List.mem_cons_of_mem a he) n hn)]
      cases hsplit : splitFirst ':' a with
      | none => simp [backendArgStep, hsplit]
      | some q =>
          obtain ⟨n, v⟩ := q
          have hk : argKey pfx n ≠ k :=
            h a (List.mem_cons_self a t) n (by simp [producedName, hsplit])
          simp only [backendArgStep, hsplit]
          rw [dictLookup_update, if_neg (fun e => hk e.symm)]

/-- A well-formed `backend_argument` entry whose name is produced by no
other entry ends up bound to everything after its first colon. -/
theorem argsLoop_lookup_found (pfx : String) (args : List String) (d : PyDict)
    {e n v : String} (he : e ∈ args)
    (hsplit : splitFirst ':' e = Option.some (n, v))
    (hnodup : (args.filterMap producedName).Nodup) :
    dictLookup (args.foldl (backendArgStep pfx) d) (argKey pfx n) =
      Option.some (PyVal.str v) := by
  induction args generalizing d with
  | nil => cases he
  | cons a t ih =>
      rcases List.mem_cons.mp he with rfl | ht
      · simp only [List.foldl_cons]
        have hstep : backendArgStep pfx d e = dictUpdate d (argKey pfx n) (.str v) := by
          simp [backendArgStep, hsplit]
        rw [hstep]
        have hpe : producedName e = Option.some n := by simp [producedName, hsplit]
        rw [List.filterMap_cons, hpe] at hnodup
        have hnotin : n ∉ List.filterMap producedName t :=
          (List.nodup_cons.mp hnodup).1
        have hn : ∀ e2 ∈ t, ∀ m, producedName e2 = Option.some m →
            argKey pfx m ≠ argKey pfx n := by
          intro e2 he2 m hm hkey
          exact hnotin (argKey_inj hkey ▸ List.mem_filterMap.mpr ⟨e2, he2, hm⟩)
        rw [argsLoop_lookup_notin pfx t _ _ hn, dictLookup_update, if_pos rfl]
      · simp only [List.foldl_cons]
        exact ih _ ht (filterMap_nodup_tail _ _ _ hnodup)

/-- The five legacy memcache keys are always bound to the legacy config
values in the final dictionary, whatever `backend_argument` said. -/
theorem build_lookup_legacy (conf : ConfObj) {arg : String}
    (h : arg ∈ legacyMemcacheArgs) :
    dictLookup (_build_cache_config conf) (argKey conf.cache.configPfx arg) =
      Option.some (memcacheArgValue conf.cache arg) := by
  simp only [legacyMemcacheArgs, List.mem_cons, List.not_mem_nil, or_false] at h
  simp only [_build_cache_config, legacyMemcacheArgs, List.foldl_cons, List.foldl_nil]
  rcases h with rfl | rfl | rfl | rfl | rfl
  · rw [dictLookup_update, if_neg (argKey_ne _ (by decide)),
        dictLookup_update, if_neg (argKey_ne _ (by decide)),
        dictLookup_update, if_neg (argKey_ne _ (by decide)),
        dictLookup_update, if_neg (argKey_ne _ (by decide)),
        dictLookup_update, if_pos rfl]
  · rw [dictLookup_update, if_neg (argKey_ne _ (by decide)),
        dictLookup_update, if_neg (argKey_ne _ (by decide)),
        dictLookup_update, if_neg (argKey_ne _ (by decide)),
        dictLookup_update, if_pos rfl]
  · rw [dictLookup_update, if_neg (argKey_ne _ (by decide)),
        dictLookup_update, if_neg (argKey_ne _ (by decide)),
        dictLookup_update, if_pos rfl]
  · rw [dictLookup_update, if_neg (argKey_ne _ (by decide)),
        dictLookup_update, if_pos rfl]
  · rw [dictLookup_update, if_pos rfl]

/-- For a name outside the legacy five, the final binding is the
`argsPhase` binding, except that `url` is defaulted via `setdefault`. -/
theorem build_lookup_nonlegacy (conf : ConfObj) {n : String}
    (h5 : n ∉ legacyMemcacheArgs) :
    dictLookup (_build_cache_config conf) (argKey conf.cache.configPfx n) =
      if n = "url"
      then Option.some ((dictLookup (argsPhase conf)
             (argKey conf.cache.configPfx "url")).getD conf.cache.memcache_servers)
      else dictLookup (argsPhase conf) (argKey conf.cache.configPfx n) := by
  simp only [legacyMemcacheArgs, List.mem_cons, List.not_mem_nil, or_false,
    not_or] at h5
  obtain ⟨h1, h2, h3, h4, h5⟩ := h5
  simp only [_build_cache_config, legacyMemcacheArgs, List.foldl_cons, List.foldl_nil]
  rw [dictLookup_update, if_neg (argKey_ne _ h5),
      dictLookup_update, if_neg (argKey_ne _ h4),
      dictLookup_update, if_neg (argKey_ne _ h3),
      dictLookup_update, if_neg (argKey_ne _ h2),
      dictLookup_update, if_neg (argKey_ne _ h1),
      dictLookup_setdefault]
  by_cases hurl : n = "url"
  · subst hurl; rw [if_pos rfl, if_pos rfl]
  · rw [if_neg (argKey_ne _ hurl), if_neg hurl]

/-- C1: the claim as stated is false.  With
`backend_argument = ["dead_retry:5"]` and `memcache_dead_retry = 30`,
the output binds `cache.arguments.dead_retry` to the legacy value `30`,
not to the backend_argument-supplied string `"5"`: only `url` enjoys
set-if-absent semantics; the other five legacy fields overwrite. -/
theorem C1_counterexample :
    dictLookup (_build_cache_config confDeadRetryArg) "cache.arguments.dead_retry" =
      Option.some (PyVal.int 30) ∧
    Option.some (PyVal.int 30) ≠ Option.some (PyVal.str "5") :=
  ⟨rfl, fun h => PyVal.noConfusion (Option.some.inj h)⟩

/-- C1 (amended): `url` is applied with set-if-absent semantics — a
value the `backend_argument` loop put at `<prefix>.arguments.url` is
preserved — while the five other memcache-legacy fields (`dead_retry`,
`socket_timeout`, `pool_maxsize`, `pool_unused_timeout`,
`pool_connection_get_timeout`) are assigned unconditionally, overwriting
any backend_argument-supplied value with the legacy config value. -/
theorem C1_amended (conf : ConfObj) :
    (∀ arg ∈ legacyMemcacheArgs,
       dictLookup (_build_cache_config conf) (argKey conf.cache.configPfx arg) =
         Option.some (memcacheArgValue conf.cache arg)) ∧
    (∀ v, dictLookup (argsPhase conf) (argKey conf.cache.configPfx "url") =
            Option.some v →
       dictLookup (_build_cache_config conf) (argKey conf.cache.configPfx "url") =
         Option.some v) := by
  constructor
  · intro arg h
    exact build_lookup_legacy conf h
  · intro v hv
    rw [build_lookup_nonlegacy conf (by decide), if_pos rfl, hv]
    rfl

/-- C1 witness: at the base config, `dead_retry` is the legacy value;
at the url-supplying config, the supplied url survives. -/
theorem C1_amended_witness :
    ("dead_retry" ∈ legacyMemcacheArgs ∧
      dictLookup (_build_cache_config confBase)
        (argKey confBase.cache.configPfx "dead_retry") = Option.some (PyVal.int 30)) ∧
    (dictLookup (argsPhase confUrlArg) (argKey confUrlArg.cache.configPfx "url") =
        Option.some (PyVal.str "1.2.3.4:11211") ∧
      dictLookup (_build_cache_config confUrlArg)
        (argKey confUrlArg.cache.configPfx "url") =
        Option.some (PyVal.str "1.2.3.4:11211")) :=
  ⟨⟨by decide, (C1_amended confBase).1 "dead_retry" (by decide)⟩,
   ⟨rfl, (C1_amended confUrlArg).2 (PyVal.str "1.2.3.4:11211") rfl⟩⟩

/-- C4: the claim as stated is false.  The well-formed entry
`"socket_timeout:7"` does NOT yield an entry whose value is everything
after the first colon: the memcache-legacy block later overwrites it
with the legacy config value `3`. -/
theorem C4_counterexample :
    dictLookup (_build_cache_config confSocketTimeoutArg)
      "cache.arguments.socket_timeout" = Option.some (PyVal.int 3) ∧
    Option.some (PyVal.int 3) ≠ Option.some (PyVal.str "7") :=
  ⟨rfl, fun h => PyVal.noConfusion (Option.some.inj h)⟩

/-- C4 (amended): each `backend_argument` entry is split once on its
first colon; a malformed entry (no colon) contributes nothing — the
translation equals the one with that entry removed, and never raises —
and a well-formed `"name:value"` entry (with names pairwise distinct)
yields the `<prefix>.arguments.<name>` entry with value everything after
the first colon, PROVIDED `name` is not one of the five legacy memcache
names, which the legacy block subsequently overwrites. -/
theorem C4_amended (conf : ConfObj) :
    (∀ l1 e l2, conf.cache.backend_argument = l1 ++ e :: l2 →
       splitFirst ':' e = Option.none →
       _build_cache_config conf =
         _build_cache_config
           { conf with cache := { conf.cache with backend_argument := l1 ++ l2 } }) ∧
    (∀ e n v, e ∈ conf.cache.backend_argument →
       splitFirst ':' e = Option.some (n, v) →
       (conf.cache.backend_argument.filterMap producedName).Nodup →
       n ∉ legacyMemcacheArgs →
       dictLookup (_build_cache_config conf) (argKey conf.cache.configPfx n) =
         Option.some (PyVal.str v)) := by
  constructor
  · intro l1 e l2 hlist hsplit
    simp only [_build_cache_config, argsPhase, hlist]
    rw [List.foldl_append, List.foldl_append, List.foldl_cons]
    simp only [backendArgStep, hsplit]
    rfl
  · intro e n v he hsplit hnodup h5
    rw [build_lookup_nonlegacy conf h5]
    have hfound :
        dictLookup (argsPhase conf) (argKey conf.cache.configPfx n) =
          Option.some (PyVal.str v) := by
      simp only [argsPhase]
      exact argsLoop_lookup_found _ _ _ he hsplit hnodup
    by_cases hurl : n = "url"
    · subst hurl
      rw [if_pos rfl, hfound]
      rfl
    · rw [if_neg hurl, hfound]

/-- C4 witness: dropping the malformed entry `"bad"` leaves the output
unchanged, and the well-formed `"url:1.2.3.4:11211"` lands at
`cache.arguments.url` with the after-colon value. -/
theorem C4_amended_witness :
    _build_cache_config confBadAndUrlArgs =
      _build_cache_config
        { confBadAndUrlArgs with cache :=
            { confBadAndUrlArgs.cache with backend_argument := [] ++ ["url:1.2.3.4:11211"] } } ∧
    dictLookup (_build_cache_config confBadAndUrlArgs)
      (argKey confBadAndUrlArgs.cache.configPfx "url") =
      Option.some (PyVal.str "1.2.3.4:11211") :=
  ⟨(C4_amended confBadAndUrlArgs).1 [] "bad" ["url:1.2.3.4:11211"] rfl rfl,
   (C4_amended confBadAndUrlArgs).2 "url:1.2.3.4:11211" "url" "1.2.3.4:11211"
     (by decide) rfl (by decide) (by decide)⟩

/-- C7: `should_cache` is false whenever `[cache] enabled` is false,
whatever the group says (even for an unregistered group, since the
check precedes the group lookup); when enabled it returns the group's
`caching` flag, defaulting to true when the group does not set it. -/
theorem C7_should_cache (conf : ConfObj) (group : String) (value : PyVal) :
    (conf.cache.enabled = false → should_cache conf group value = Except.ok false) ∧
    (conf.cache.enabled = true →
      ∀ g, (conf.groups.find? (fun q => q.1 = group)).map (fun q => q.2) =
          Option.some g →
        should_cache conf group value = Except.ok (g.caching.getD true)) := by
  constructor
  · intro h
    simp [should_cache, h]
  · intro h g hg
    simp [should_cache, h, hg]

/-- C7 witness: disabled config gives false despite `caching = true`;
enabled config with a group that sets nothing gives the default true. -/
theorem C7_should_cache_witness :
    (confDisabled.cache.enabled = false ∧
      should_cache confDisabled "identity" (PyVal.int 1) = Except.ok false) ∧
    (confGroupDefault.cache.enabled = true ∧
      should_cache confGroupDefault "identity" (PyVal.int 1) = Except.ok true) :=
  ⟨⟨rfl, (C7_should_cache confDisabled "identity" (PyVal.int 1)).1 rfl⟩,
   ⟨rfl, (C7_should_cache confGroupDefault "identity" (PyVal.int 1)).2 rfl
      { caching := Option.none, cache_time := Option.none } rfl⟩⟩

theorem hexFixed_length (w n : Nat) : (hexFixed w n).length = w := by
  induction w generalizing n with
  | zero => rfl
  | succ w ih => simp [hexFixed, ih]

theorem hexdigest_length (d : Nat × Nat × Nat × Nat × Nat) :
    (hexdigest d).length = 40 := by
  obtain ⟨h0, h1, h2, h3, h4⟩ := d
  simp [hexdigest, String.length, hexFixed_length]

/-- C9: the default key mangler encodes totally (every character a key
string can hold is UTF-8-encodable, so the `xmlcharrefreplace` escape
hatch keeps encoding from failing) and always returns the 40-character
SHA-1 hex digest — a length bounded by the hash output and independent
of the input length, however long the key. -/
theorem C9_mangled_length (key : String) : (_sha1_mangle_key key).length = 40 := by
  unfold _sha1_mangle_key sha1_mangle_key
  exact hexdigest_length _

theorem regionWrap_backend_isSome (r : CacheRegion) (p : ProxyClass) :
    (regionWrap r p).backend.isSome = r.backend.isSome := by
  cases hb : r.backend <;> simp [regionWrap, hb]

theorem foldl_wrap_backend_isSome (ps : List String) (r : CacheRegion) :
    ((ps.foldl (fun r cp => regionWrap r (.custom cp)) r)).backend.isSome =
      r.backend.isSome := by
  induction ps generalizing r with
  | nil => rfl
  | cons a t ih =>
      simp only [List.foldl_cons]
      rw [ih, regionWrap_backend_isSome]

theorem foldl_wrap_backend_some (ps : List String) (r : CacheRegion)
    (c : BackendChain) (h : r.backend = Option.some c) :
    (ps.foldl (fun r cp => regionWrap r (.custom cp)) r).backend =
      Option.some (ps.foldl (fun ch cp => BackendChain.wrap (.custom cp) ch) c) := by
  induction ps generalizing r c with
  | nil => simpa using h
  | cons a t ih =>
      simp only [List.foldl_cons]
      exact ih _ _ (by simp [regionWrap, h])

theorem proxyStack_foldl (ps : List String) (c : BackendChain) :
    proxyStack (ps.foldl (fun ch cp => BackendChain.wrap (.custom cp) ch) c) =
      (ps.map ProxyClass.custom).reverse ++ proxyStack c := by
  induction ps generalizing c with
  | nil => simp
  | cons a t ih =>
      simp [List.foldl_cons, ih, proxyStack, List.reverse_cons, List.append_assoc]

theorem configure_from_config_backend {reg : BackendRegistry} {r : CacheRegion}
    {cfg : PyDict} {pfxDot : String} {r1 : CacheRegion}
    (h : configure_from_config reg r cfg pfxDot = Except.ok r1) :
    r1.backend = Option.some (.base cfg) := by
  unfold configure_from_config at h
  split at h
  · split at h
    · cases h
      rfl
    · exact absurd h (by simp)
  · exact absurd h (by simp)

theorem configure_from_config_error {reg : BackendRegistry} {r : CacheRegion}
    {cfg : PyDict} {pfxDot : String} {e : CacheError}
    (h : configure_from_config reg r cfg pfxDot = Except.error e) :
    ∃ name, e = .unknownBackendError name := by
  unfold configure_from_config at h
  split at h
  · split at h
    · exact absurd h (by simp)
    · exact ⟨_, (Except.error.inj h).symm⟩
  · exact ⟨_, (Except.error.inj h).symm⟩

/-- Any region successfully returned by `configure_cache_region` is
configured. -/
theorem configure_ok_configured {reg : BackendRegistry} {conf : ConfObj}
    {r r' : CacheRegion}
    (h : configure_cache_region reg conf (.region r) = Except.ok r') :
    r'.is_configured = true := by
  simp only [configure_cache_region] at h
  split at h
  · cases h
    assumption
  · split at h
    · exact absurd h (by simp)
    · rename_i r1 heq
      cases h
      have hb := configure_from_config_backend heq
      simp only [CacheRegion.is_configured] at *
      rw [foldl_wrap_backend_isSome]
      split
      · split <;> simp [regionWrap_backend_isSome, hb]
      · split <;> simp [regionWrap_backend_isSome, hb]

/-- C5: region configuration is one-way and idempotent — an
already-configured region is returned unchanged (no re-instantiation,
re-wrapping or key-mangler change), and a second configure call on the
result of a successful first call returns that result unchanged. -/
theorem C5_configure_idempotent (reg : BackendRegistry) (conf : ConfObj)
    (r : CacheRegion) :
    (r.is_configured = true →
       configure_cache_region reg conf (.region r) = Except.ok r) ∧
    (∀ r', configure_cache_region reg conf (.region r) = Except.ok r' →
       configure_cache_region reg conf (.region r') = Except.ok r') := by
  constructor
  · intro h
    simp [configure_cache_region, h]
  · intro r' h
    have hr' := configure_ok_configured h
    simp [configure_cache_region, hr']

/-- C5 witness: a configured region is returned untouched, and a
freshly configured region is a fixed point of a second call. -/
theorem C5_configure_idempotent_witness :
    (regionConfigured.is_configured = true ∧
      configure_cache_region regBase confBase (.region regionConfigured) =
        Except.ok regionConfigured) ∧
    (∃ r', configure_cache_region regBase confBase (.region regionUnconfigured) =
        Except.ok r' ∧
      configure_cache_region regBase confBase (.region r') = Except.ok r') :=
  ⟨⟨rfl, (C5_configure_idempotent regBase confBase regionConfigured).1 rfl⟩,
   ⟨_, rfl, (C5_configure_idempotent regBase confBase regionUnconfigured).2 _ rfl⟩⟩

/-- C6: the claim as stated is false.  When backend resolution fails
(registry resolving nothing, unconfigured region), the call does NOT
fail with `ConfigurationError`: the registry's `UnknownBackendError`
propagates unwrapped. -/
theorem C6_counterexample :
    ¬ ∃ m, configure_cache_region regEmpty confBase (.region regionUnconfigured) =
        Except.error (.configurationError m) := by
  intro hex
  obtain ⟨m, h⟩ := hex
  have heval : configure_cache_region regEmpty confBase (.region regionUnconfigured) =
      Except.error (.unknownBackendError "oslo_cache.dict") := rfl
  rw [heval] at h
  exact CacheError.noConfusion (Except.error.inj h)

/-- C6 (amended): `configure_cache_region` raises `ConfigurationError`
in exactly one case — a non-region object; a backend-resolution failure
is fatal too but surfaces as the registry's `UnknownBackendError`,
which the function propagates without converting.  In both cases no
configured region is produced. -/
theorem C6_amended (reg : BackendRegistry) (conf : ConfObj) (obj : RegionObj) :
    (∀ d, obj = .notARegion d →
       configure_cache_region reg conf obj =
         Except.error (.configurationError "region not type dogpile.cache.CacheRegion")) ∧
    (∀ r e, obj = .region r →
       configure_cache_region reg conf obj = Except.error e →
       ∃ name, e = .unknownBackendError name) := by
  constructor
  · intro d hobj
    subst hobj
    rfl
  · intro r e hobj h
    subst hobj
    simp only [configure_cache_region] at h
    split at h
    · exact absurd h (by simp)
    · split at h
      · rename_i e0 heq
        cases h
        exact configure_from_config_error heq
      · exact absurd h (by simp)

/-- C6 witness: the wrong-type case yields `ConfigurationError`; the
unresolvable-backend case yields an `UnknownBackendError`. -/
theorem C6_amended_witness :
    configure_cache_region regBase confBase (.notARegion "int object") =
      Except.error (.configurationError "region not type dogpile.cache.CacheRegion") ∧
    ∃ name, (CacheError.unknownBackendError "oslo_cache.dict") =
      CacheError.unknownBackendError name :=
  ⟨(C6_amended regBase confBase (.notARegion "int object")).1 "int object" rfl,
   (C6_amended regEmpty confBase (.region regionUnconfigured)).2 regionUnconfigured
     (.unknownBackendError "oslo_cache.dict") rfl rfl⟩

theorem mangler_default_backend (r2 : CacheRegion) :
    (if r2.key_mangler = Option.none
     then { r2 with key_mangler := Option.some .sha1Mangler }
     else r2).backend = r2.backend := by
  split <;> rfl

/-- C8: on a successful fresh configuration, the proxies from
`conf.cache.proxies` are applied in list order, each wrapping the
previous result — so the outermost-first stack is the reversed list —
and the debug proxy, when enabled, sits inside all of them. -/
theorem C8_proxy_order (reg : BackendRegistry) (conf : ConfObj)
    (r r' : CacheRegion) (hr : r.is_configured = false)
    (h : configure_cache_region reg conf (.region r) = Except.ok r') :
    ∃ chain, r'.backend = Option.some chain ∧
      proxyStack chain =
        (conf.cache.proxies.map ProxyClass.custom).reverse ++
          (if conf.cache.debug_cache_backend then [ProxyClass.debugProxy] else []) := by
  simp only [configure_cache_region] at h
  split at h
  · rename_i hcond
    rw [hr] at hcond
    exact absurd hcond (by simp)
  case isFalse =>
    split at h
    · exact absurd h (by simp)
    rename_i r1 heq
    cases h
    have hb := configure_from_config_backend heq
    by_cases hdbg : conf.cache.debug_cache_backend
    · have hb2 : (if conf.cache.debug_cache_backend
          then regionWrap r1 .debugProxy else r1).backend =
            Option.some (.wrap .debugProxy (.base (_build_cache_config conf))) := by
        rw [if_pos hdbg]
        simp [regionWrap, hb]
      refine ⟨conf.cache.proxies.foldl (fun ch cp => BackendChain.wrap (.custom cp) ch)
        (.wrap .debugProxy (.base (_build_cache_config conf))), ?_, ?_⟩
      · apply foldl_wrap_backend_some
        rw [mangler_default_backend]
        exact hb2
      · rw [proxyStack_foldl, hdbg, if_pos rfl]
        rfl
    · have hb2 : (if conf.cache.debug_cache_backend
          then regionWrap r1 .debugProxy else r1).backend =
            Option.some (.base (_build_cache_config conf)) := by
        rw [if_neg hdbg]
        exact hb
      refine ⟨conf.cache.proxies.foldl (fun ch cp => BackendChain.wrap (.custom cp) ch)
        (.base (_build_cache_config conf)), ?_, ?_⟩
      · apply foldl_wrap_backend_some
        rw [mangler_default_backend]
        exact hb2
      · rw [proxyStack_foldl, if_neg hdbg]
        rfl

/-- C8 witness: with debug enabled and proxies One, Two, the stack seen
outermost-first is Two, One, debug. -/
theorem C8_proxy_order_witness :
    ∃ r', configure_cache_region regBase confProxies (.region regionUnconfigured) =
        Except.ok r' ∧
      ∃ chain, r'.backend = Option.some chain ∧
        proxyStack chain = [ProxyClass.custom "my.proxy.Two",
          ProxyClass.custom "my.proxy.One", ProxyClass.debugProxy] :=
  ⟨_, rfl, by
    have h := C8_proxy_order regBase confProxies regionUnconfigured _ rfl rfl
    simpa using h⟩

theorem parseSentinelsList_error {l : List String} {e msg : String}
    (he : e ∈ l) (herr : parseSentinelEntry e = Except.error msg) :
    ∃ m, parseSentinelsList l = Except.error m := by
  induction l with
  | nil => cases he
  | cons a t ih =>
      rcases List.mem_cons.mp he with rfl | ht
      · exact ⟨msg, by simp [parseSentinelsList, herr, Bind.bind, Except.bind]⟩
      · cases hfa : parseSentinelEntry a with
        | error m2 => exact ⟨m2, by simp [parseSentinelsList, hfa, Bind.bind, Except.bind]⟩
        | ok x =>
            obtain ⟨m, hm⟩ := ih ht
            exact ⟨m, by simp [parseSentinelsList, hfa, hm, Bind.bind, Except.bind]⟩

/-- C10: a `sentinels` string containing an entry with no colon, or
whose after-last-colon text is not a valid integer, makes the sentinel
adapter's constructor raise (ValueError from tuple unpacking or from
`int()`) rather than skip or log-and-continue. -/
theorem C10_bad_sentinels_raise (arguments : PyDict) (s : String)
    (hs : dictLookup arguments "sentinels" = Option.some (PyVal.str s))
    (hbad : ∃ e ∈ pySplit ',' s,
        rsplitLast ':' e = Option.none ∨
        ∃ h p, rsplitLast ':' e = Option.some (h, p) ∧ pyInt p = Option.none) :
    ∃ msg, redisSentinelInit arguments = Except.error msg := by
  obtain ⟨e, he, hcase⟩ := hbad
  have herr : ∃ m0, parseSentinelEntry e = Except.error m0 := by
    rcases hcase with hnone | ⟨h, p, hsp, hint⟩
    · exact ⟨"ValueError: not enough values to unpack",
        by simp [parseSentinelEntry, hnone]⟩
    · exact ⟨"ValueError: invalid literal for int: " ++ p,
        by simp [parseSentinelEntry, hsp, hint]⟩
  obtain ⟨m0, hm0⟩ := herr
  obtain ⟨m, hm⟩ := parseSentinelsList_error he hm0
  refine ⟨m, ?_⟩
  simp [redisSentinelInit, getItem, hs, asStr, parseSentinels, hm,
    Bind.bind, Except.bind]

/-- C10 witness: a `sentinels` entry without a colon raises. -/
theorem C10_bad_sentinels_raise_witness :
    ∃ msg, redisSentinelInit argsBadSentinels = Except.error msg :=
  C10_bad_sentinels_raise argsBadSentinels "nocolon" rfl
    ⟨"nocolon", by decide, Or.inl rfl⟩

/-- C2: the claim as stated is false.  With `ssl` truthy and
`ssl_certfile` absent, the adapter itself raises (`KeyError`) at
construction time — the absence is not left to the underlying client at
connection time. -/
theorem C2_counterexample :
    redisSentinelInit argsMissingCert = Except.error "KeyError: ssl_certfile" := rfl

/-- C2 (amended): the adapter performs no dedicated validation, but its
direct dictionary accesses make missing fields fatal at construction
time: a missing `sentinels`, `username` or `password` raises `KeyError`
inside the constructor, and with `ssl` present and truthy so does a
missing `ssl_certfile`, `ssl_keyfile` or `ssl_ca_certs` (each stated
with the fields the constructor reads earlier present, since the first
failing access raises); only fields the adapter never touches are left
to the underlying client at connection time. -/
theorem C2_amended (arguments : PyDict) :
    (dictLookup arguments "sentinels" = Option.none →
       redisSentinelInit arguments = Except.error "KeyError: sentinels") ∧
    (∀ S l, dictLookup arguments "sentinels" = Option.some (.str S) →
       parseSentinels S = Except.ok l →
       dictLookup arguments "username" = Option.none →
       redisSentinelInit arguments = Except.error "KeyError: username") ∧
    (∀ S l u, dictLookup arguments "sentinels" = Option.some (.str S) →
       parseSentinels S = Except.ok l →
       dictLookup arguments "username" = Option.some u →
       dictLookup arguments "password" = Option.none →
       redisSentinelInit arguments = Except.error "KeyError: password") ∧
    (∀ S l u p sslv, dictLookup arguments "sentinels" = Option.some (.str S) →
       parseSentinels S = Except.ok l →
       dictLookup arguments "username" = Option.some u →
       dictLookup arguments "password" = Option.some p →
       dictLookup arguments "ssl" = Option.some sslv →
       truthy sslv = true →
       dictLookup arguments "ssl_certfile" = Option.none →
       redisSentinelInit arguments = Except.error "KeyError: ssl_certfile") ∧
    (∀ S l u p sslv cert, dictLookup arguments "sentinels" = Option.some (.str S) →
       parseSentinels S = Except.ok l →
       dictLookup arguments "username" = Option.some u →
       dictLookup arguments "password" = Option.some p →
       dictLookup arguments "ssl" = Option.some sslv →
       truthy sslv = true →
       dictLookup arguments "ssl_certfile" = Option.some cert →
       dictLookup arguments "ssl_keyfile" = Option.none →
       redisSentinelInit arguments = Except.error "KeyError: ssl_keyfile") ∧
    (∀ S l u p sslv cert keyf, dictLookup arguments "sentinels" = Option.some (.str S) →
       parseSentinels S = Except.ok l →
       dictLookup arguments "username" = Option.some u →
       dictLookup arguments "password" = Option.some p →
       dictLookup arguments "ssl" = Option.some sslv →
       truthy sslv = true →
       dictLookup arguments "ssl_certfile" = Option.some cert →
       dictLookup arguments "ssl_keyfile" = Option.some keyf →
       dictLookup arguments "ssl_ca_certs" = Option.none →
       redisSentinelInit arguments = Except.error "KeyError: ssl_ca_certs") := by
  refine ⟨?_, ?_, ?_, ?_, ?_, ?_⟩
  · intro hs
    simp [redisSentinelInit, getItem, hs, Bind.bind, Except.bind]
  · intro S l hs hl hu
    simp [redisSentinelInit, getItem, hs, asStr, hl, hu, Bind.bind, Except.bind]
  · intro S l u hs hl hu hp
    simp [redisSentinelInit, getItem, hs, asStr, hl, hu, hp, Bind.bind, Except.bind]
  · intro S l u p sslv hs hl hu hp hssl ht hcert
    simp [redisSentinelInit, getItem, hs, asStr, hl, hu, hp, hssl, ht, hcert,
      Bind.bind, Except.bind]
  · intro S l u p sslv cert hs hl hu hp hssl ht hcert hkey
    simp [redisSentinelInit, getItem, hs, asStr, hl, hu, hp, hssl, ht, hcert,
      hkey, Bind.bind, Except.bind]
  · intro S l u p sslv cert keyf hs hl hu hp hssl ht hcert hkey hca
    simp [redisSentinelInit, getItem, hs, asStr, hl, hu, hp, hssl, ht, hcert,
      hkey, hca, Bind.bind, Except.bind]

/-- C2 witness: one concrete dictionary per missing field — `sentinels`,
`username`, `password`, `ssl_certfile`, `ssl_keyfile`, `ssl_ca_certs` —
each raising the corresponding `KeyError` at construction time. -/
theorem C2_amended_witness :
    redisSentinelInit argsNoSentinels = Except.error "KeyError: sentinels" ∧
    redisSentinelInit argsNoUsername = Except.error "KeyError: username" ∧
    redisSentinelInit argsNoPassword = Except.error "KeyError: password" ∧
    redisSentinelInit argsMissingCert = Except.error "KeyError: ssl_certfile" ∧
    redisSentinelInit argsMissingKeyfile = Except.error "KeyError: ssl_keyfile" ∧
    redisSentinelInit argsMissingCaCerts = Except.error "KeyError: ssl_ca_certs" :=
  ⟨(C2_amended argsNoSentinels).1 rfl,
   (C2_amended argsNoUsername).2.1 "10.0.0.1:26379" [("10.0.0.1", 26379)] rfl rfl rfl,
   (C2_amended argsNoPassword).2.2.1 "10.0.0.1:26379" [("10.0.0.1", 26379)]
     (PyVal.str "u") rfl rfl rfl rfl,
   (C2_amended argsMissingCert).2.2.2.1 "10.0.0.1:26379" [("10.0.0.1", 26379)]
     (PyVal.str "u") (PyVal.str "p") (PyVal.bool true) rfl rfl rfl rfl rfl rfl rfl,
   (C2_amended argsMissingKeyfile).2.2.2.2.1 "10.0.0.1:26379" [("10.0.0.1", 26379)]
     (PyVal.str "u") (PyVal.str "p") (PyVal.bool true) (PyVal.str "cert.pem")
     rfl rfl rfl rfl rfl rfl rfl rfl,
   (C2_amended argsMissingCaCerts).2.2.2.2.2 "10.0.0.1:26379" [("10.0.0.1", 26379)]
     (PyVal.str "u") (PyVal.str "p") (PyVal.bool true) (PyVal.str "cert.pem")
     (PyVal.str "key.pem") rfl rfl rfl rfl rfl rfl rfl rfl rfl⟩

/-- Lookups into the dictionary the sentinel adapter hands to its
superclass: parsed sentinels in place, credentials gone from the top
level, both nested kwargs dictionaries present and identical. -/
theorem adapterOutLookups (arguments : PyDict) (l : List (String × Int))
    (kw : PyDict) (out : PyDict)
    (hout : out = dictDelete (dictDelete (dictUpdate (dictUpdate (dictUpdate arguments
      "sentinels" (PyVal.sentinelList l)) "connection_kwargs" (PyVal.dict kw))
      "sentinel_kwargs" (PyVal.dict kw)) "username") "password") :
    dictLookup out "sentinels" = Option.some (PyVal.sentinelList l) ∧
    dictLookup out "username" = Option.none ∧
    dictLookup out "password" = Option.none ∧
    dictLookup out "connection_kwargs" = Option.some (PyVal.dict kw) ∧
    dictLookup out "sentinel_kwargs" = Option.some (PyVal.dict kw) := by
  subst hout
  refine ⟨?_, ?_, ?_, ?_, ?_⟩ <;> simp [dictLookup_delete, dictLookup_update]

/-- C3: for a well-formed argument dictionary the sentinel adapter
replaces `sentinels` by the parsed (host, int(port)) list obtained by
splitting each comma-separated pair on its last colon, removes the
top-level `username`/`password`, places both credentials in
`connection_kwargs` and in the identical `sentinel_kwargs`, and merges
the TLS fields into both exactly when `ssl` is present and truthy. -/
theorem C3_sentinel_reshape (arguments : PyDict) (S : String)
    (l : List (String × Int)) (u p cert keyf ca : PyVal)
    (hs : dictLookup arguments "sentinels" = Option.some (.str S))
    (hl : parseSentinels S = Except.ok l)
    (hu : dictLookup arguments "username" = Option.some u)
    (hp : dictLookup arguments "password" = Option.some p)
    (htls : ∀ sslv, dictLookup arguments "ssl" = Option.some sslv →
       truthy sslv = true →
       dictLookup arguments "ssl_certfile" = Option.some cert ∧
       dictLookup arguments "ssl_keyfile" = Option.some keyf ∧
       dictLookup arguments "ssl_ca_certs" = Option.some ca) :
    ∃ out, redisSentinelInit arguments = Except.ok out ∧
      dictLookup out "sentinels" = Option.some (.sentinelList l) ∧
      dictLookup out "username" = Option.none ∧
      dictLookup out "password" = Option.none ∧
      ∃ kw, dictLookup out "connection_kwargs" = Option.some (.dict kw) ∧
        dictLookup out "sentinel_kwargs" = Option.some (.dict kw) ∧
        (sslOn arguments = false → kw = [("username", u), ("password", p)]) ∧
        (∀ sslv, dictLookup arguments "ssl" = Option.some sslv →
           truthy sslv = true →
           kw = [("username", u), ("password", p), ("ssl", sslv),
                 ("ssl_certfile", cert), ("ssl_keyfile", keyf),
                 ("ssl_ca_certs", ca)]) := by
  cases hcase : dictLookup arguments "ssl" with
  | none =>
      refine ⟨dictDelete (dictDelete (dictUpdate (dictUpdate (dictUpdate arguments
        "sentinels" (PyVal.sentinelList l)) "connection_kwargs"
        (PyVal.dict [("username", u), ("password", p)])) "sentinel_kwargs"
        (PyVal.dict [("username", u), ("password", p)])) "username") "password",
        ?_, ?_⟩
      · simp only [redisSentinelInit, getItem, hs, asStr, hl, hu, hp, hcase,
          Bind.bind, Except.bind]
        rfl
      · obtain ⟨f1, f2, f3, f4, f5⟩ := adapterOutLookups arguments l
          [("username", u), ("password", p)] _ rfl
        refine ⟨f1, f2, f3, [("username", u), ("password", p)], f4, f5, ?_, ?_⟩
        · intro _; rfl
        · intro sslv h
          exact absurd h (by simp)
  | some sslv =>
      by_cases ht : truthy sslv = true
      · obtain ⟨hc, hk, hca⟩ := htls sslv hcase ht
        refine ⟨dictDelete (dictDelete (dictUpdate (dictUpdate (dictUpdate arguments
          "sentinels" (PyVal.sentinelList l)) "connection_kwargs"
          (PyVal.dict (dictUpdate (dictUpdate (dictUpdate (dictUpdate
            [("username", u), ("password", p)] "ssl" sslv) "ssl_certfile" cert)
            "ssl_keyfile" keyf) "ssl_ca_certs" ca))) "sentinel_kwargs"
          (PyVal.dict (dictUpdate (dictUpdate (dictUpdate (dictUpdate
            [("username", u), ("password", p)] "ssl" sslv) "ssl_certfile" cert)
            "ssl_keyfile" keyf) "ssl_ca_certs" ca))) "username") "password",
          ?_, ?_⟩
        · simp only [redisSentinelInit, getItem, hs, asStr, hl, hu, hp, hcase,
            ht, if_true, hc, hk, hca, Bind.bind, Except.bind]
          rfl
        · have hkw : dictUpdate (dictUpdate (dictUpdate (dictUpdate
              [("username", u), ("password", p)]
              "ssl" sslv) "ssl_certfile" cert) "ssl_keyfile" keyf)
              "ssl_ca_certs" ca =
              [("username", u), ("password", p), ("ssl", sslv),
               ("ssl_certfile", cert), ("ssl_keyfile", keyf),
               ("ssl_ca_certs", ca)] := by
            simp [dictUpdate]
          rw [hkw]
          obtain ⟨f1, f2, f3, f4, f5⟩ := adapterOutLookups arguments l
            [("username", u), ("password", p), ("ssl", sslv),
             ("ssl_certfile", cert), ("ssl_keyfile", keyf),
             ("ssl_ca_certs", ca)] _ rfl
          refine ⟨f1, f2, f3, _, f4, f5, ?_, ?_⟩
          · intro hfalse
            have hT : sslOn arguments = true := by simp [sslOn, hcase, ht]
            rw [hT] at hfalse
            cases hfalse
          · intro sslv2 h2 _
            rw [Option.some.inj h2]
      · refine ⟨dictDelete (dictDelete (dictUpdate (dictUpdate (dictUpdate arguments
          "sentinels" (PyVal.sentinelList l)) "connection_kwargs"
          (PyVal.dict [("username", u), ("password", p)])) "sentinel_kwargs"
          (PyVal.dict [("username", u), ("password", p)])) "username") "password",
          ?_, ?_⟩
        · simp only [redisSentinelInit, getItem, hs, asStr, hl, hu, hp, hcase,
            ht, if_false, Bind.bind, Except.bind]
          rfl
        · obtain ⟨f1, f2, f3, f4, f5⟩ := adapterOutLookups arguments l
            [("username", u), ("password", p)] _ rfl
          refine ⟨f1, f2, f3, [("username", u), ("password", p)], f4, f5, ?_, ?_⟩
          · intro _; rfl
          · intro sslv2 h2 ht2
            rw [← Option.some.inj h2] at ht2
            exact absurd ht2 ht

/-- C3 witness: the spec's example — two sentinels, credentials u/p,
no TLS. -/
theorem C3_sentinel_reshape_witness :
    ∃ out, redisSentinelInit argsSentinelExample = Except.ok out ∧
      dictLookup out "sentinels" =
        Option.some (.sentinelList [("10.0.0.1", 26379), ("10.0.0.2", 26379)]) ∧
      dictLookup out "username" = Option.none ∧
      dictLookup out "password" = Option.none ∧
      ∃ kw, dictLookup out "connection_kwargs" = Option.some (.dict kw) ∧
        dictLookup out "sentinel_kwargs" = Option.some (.dict kw) ∧
        (sslOn argsSentinelExample = false →
          kw = [("username", .str "u"), ("password", .str "p")]) ∧
        (∀ sslv, dictLookup argsSentinelExample "ssl" = Option.some sslv →
           truthy sslv = true →
           kw = [("username", .str "u"), ("password", .str "p"), ("ssl", sslv),
                 ("ssl_certfile", .str ""), ("ssl_keyfile", .str ""),
                 ("ssl_ca_certs", .str "")]) :=
  C3_sentinel_reshape argsSentinelExample "10.0.0.1:26379,10.0.0.2:26379"
    [("10.0.0.1", 26379), ("10.0.0.2", 26379)]
    (.str "u") (.str "p") (.str "") (.str "") (.str "")
    rfl rfl rfl rfl
    (fun sslv h _ => absurd h (by simp [argsSentinelExample, dictLookup]))

end OsloCache
